import Mathlib

/-!
Shallow embedding of the session-orchestration core of LegalLM
(`src/src/app/page.tsx`, the `LegalLMPage` component).

Modelling conventions:
* React `useState` fields become the fields of `SessionState`.
* `Date.now()` is modelled as an explicit clock argument (`now : Nat`)
  threaded to every call site that reads the wall clock.
* Each async handler suspends only at its single external collaborator
  call; it is therefore embedded as a pure function of the pre-state and
  of the collaborator outcome (`Except Unit String`: `ok text` for a
  resolved call, `error ()` for a rejected one).
* The first component of a handler result is the error channel visible to
  the caller (a synchronously thrown exception or rejected promise).  In
  the source no handler ever throws to its caller: guard failures exit
  with a bare `return` and collaborator failures are caught, so this
  component is `none` on every path.  `ActionErr` names the error
  taxonomy of the specification so that claims about this channel can be
  stated.
* `setTimeout` in `handleCitationClick` is modelled by returning the
  scheduled deadline together with the new state, and by a separate
  function `fireHighlightTimeout` for the timer callback.
-/

/-- A document (`Document` of `src/lib/types` as used in page.tsx):
`id` is assigned from `Date.now()` at creation (page.tsx line 45). -/
structure Document where
  id : Nat
  name : String
  summary : String
  content : String
deriving DecidableEq, Repr

/-- The sender tag of a transcript message. -/
inductive Sender
  | user
  | ai
deriving DecidableEq, Repr

/-- A transcript message (`Message` of `src/lib/types` as used in page.tsx):
`id` is assigned from `Date.now()` at append (page.tsx line 105). -/
structure Message where
  id : Nat
  sender : Sender
  content : String
deriving DecidableEq, Repr

/-- The React state of `LegalLMPage` (page.tsx lines 16-23). -/
structure SessionState where
  documents : List Document
  selectedDocument : Option Document
  messages : List Message
  isLoading : Bool
  loadingAction : Option String
  highlightedDoc : Option Nat
  viewerScroll : Nat
deriving DecidableEq, Repr

/-- The error taxonomy of the specification (`NoDocument`, `Busy`,
`InvalidInput`), used to state claims about the surfaced-error channel of
the handlers.  The source never populates this channel. -/
inductive ActionErr
  | noDocument
  | busy
  | invalidInput
deriving DecidableEq, Repr

/-- `addMessage` (page.tsx lines 104-106): append one message whose id is
`Date.now()` (the clock argument). -/
def addMessage (s : SessionState) (now : Nat) (sender : Sender)
    (content : String) : SessionState :=
  { s with messages :=
      s.messages ++ [{ id := now, sender := sender, content := content }] }

/-- `handleSendMessage` (page.tsx lines 108-128), the `qna` action.
Guard: `if (!selectedDocument?.content) return;`.  Then the `user`
message is appended (clock `n1`), the loading flags are set, the
collaborator is awaited, the answer or the fixed apology is appended
(clock `n2`), and the `finally` block clears the loading flags. -/
def handleSendMessage (s : SessionState) (content : String) (n1 n2 : Nat)
    (collab : Except Unit String) : Option ActionErr × SessionState :=
  match s.selectedDocument with
  | none => (none, s)
  | some d =>
    if d.content = "" then (none, s)
    else
      let s1 := addMessage s n1 Sender.user content
      let s2 := { s1 with isLoading := true, loadingAction := some "qna" }
      let s3 :=
        match collab with
        | Except.ok answer => addMessage s2 n2 Sender.ai answer
        | Except.error _ =>
            addMessage s2 n2 Sender.ai
              "Sorry, I encountered an error trying to answer your question."
      (none, { s3 with isLoading := false, loadingAction := none })

/-- `handleGenerateSummary` (page.tsx lines 130-145), the `summary` action.
The parameter `doc` defaults to `selectedDocument` at the call sites that
pass nothing; both are modelled by passing the `Option Document` explicitly.
Guard: `if (!doc?.content) return;`. -/
def handleGenerateSummary (s : SessionState) (doc : Option Document)
    (now : Nat) (collab : Except Unit String) :
    Option ActionErr × SessionState :=
  match doc with
  | none => (none, s)
  | some d =>
    if d.content = "" then (none, s)
    else
      let s1 := { s with isLoading := true, loadingAction := some "summary" }
      let s2 :=
        match collab with
        | Except.ok summary =>
            addMessage s1 now Sender.ai
              ("<h3>Summary of " ++ d.name ++ "</h3>" ++ summary)
        | Except.error _ =>
            addMessage s1 now Sender.ai
              ("Sorry, I couldn't generate a summary for " ++ d.name ++ ".")
      (none, { s2 with isLoading := false, loadingAction := none })

/-- `handleRiskAnalysis` (page.tsx lines 147-162), the `risks` action.
Guard: `if (!selectedDocument?.content) return;`. -/
def handleRiskAnalysis (s : SessionState) (now : Nat)
    (collab : Except Unit String) : Option ActionErr × SessionState :=
  match s.selectedDocument with
  | none => (none, s)
  | some d =>
    if d.content = "" then (none, s)
    else
      let s1 := { s with isLoading := true, loadingAction := some "risks" }
      let s2 :=
        match collab with
        | Except.ok analysis => addMessage s1 now Sender.ai analysis
        | Except.error _ =>
            addMessage s1 now Sender.ai
              "Sorry, I failed to analyze risks and clauses."
      (none, { s2 with isLoading := false, loadingAction := none })

/-- JavaScript `String.prototype.trim`: strips leading and trailing
whitespace.  (Lean's own `String.trim` is extensionally the same but is
not kernel-executable, so the JS function is embedded directly over the
character list.) -/
def jsTrim (t : String) : String :=
  String.mk
    (((t.data.dropWhile Char.isWhitespace).reverse.dropWhile
        Char.isWhitespace).reverse)

/-- `handleDefineTerm` (page.tsx lines 164-183), the `jargon` action.
Guard: `if (!selectedDocument?.content || !term.trim()) return;` — the
raw `term` (not the trimmed one) is used in the appended messages. -/
def handleDefineTerm (s : SessionState) (term : String) (n1 n2 : Nat)
    (collab : Except Unit String) : Option ActionErr × SessionState :=
  match s.selectedDocument with
  | none => (none, s)
  | some d =>
    if d.content = "" then (none, s)
    else if jsTrim term = "" then (none, s)
    else
      let s1 := addMessage s n1 Sender.user ("Define: \"" ++ term ++ "\"")
      let s2 := { s1 with isLoading := true, loadingAction := some "jargon" }
      let s3 :=
        match collab with
        | Except.ok definition => addMessage s2 n2 Sender.ai definition
        | Except.error _ =>
            addMessage s2 n2 Sender.ai
              ("Sorry, I failed to define \"" ++ term ++ "\".")
      (none, { s3 with isLoading := false, loadingAction := none })

/-- Synchronous part of `handleSelectDocument` (page.tsx lines 88-93):
sets the selection, clears the transcript, and runs the triggered
`handleGenerateSummary(doc)` up to its first `await` (which only sets the
loading flags when the guard passes).  This is the state observable
immediately after the call returns control. -/
def handleSelectDocumentSync (s : SessionState) (doc : Document) :
    SessionState :=
  let s1 := { s with selectedDocument := some doc, messages := [] }
  if doc.content = "" then s1
  else { s1 with isLoading := true, loadingAction := some "summary" }

/-- `handleSelectDocument` (page.tsx lines 88-93) run to completion of the
summary action it triggers. -/
def handleSelectDocument (s : SessionState) (doc : Document) (now : Nat)
    (collab : Except Unit String) : SessionState :=
  (handleGenerateSummary
      { s with selectedDocument := some doc, messages := [] }
      (some doc) now collab).2

/-- Document-creation step of `handleFileChange` (page.tsx lines 36-37 and
44-51): the loading flags are set, a new `Document` with `id = Date.now()`
and empty summary is appended to `documents`, and `handleSelectDocument`
is invoked on it (here its synchronous part). -/
def addDocumentAt (s : SessionState) (now : Nat) (name dataUri : String) :
    SessionState :=
  let s0 := { s with isLoading := true, loadingAction := some "summary" }
  let newDoc : Document :=
    { id := now, name := name, summary := "", content := dataUri }
  let s1 := { s0 with documents := s0.documents ++ [newDoc] }
  handleSelectDocumentSync s1 newDoc

/-- A sequence of uploads: each element of `ups` is
`(clock value, file name, encoded payload)`. -/
def addDocuments (s : SessionState) (ups : List (Nat × String × String)) :
    SessionState :=
  ups.foldl (fun st u => addDocumentAt st u.1 u.2.1 u.2.2) s

/-- Upload continuation of `handleFileChange` (page.tsx lines 53-59 and the
`finally` block 68-71), success path: the transcript is REPLACED wholesale
by the single summary message (`setMessages([summaryMessage])`, message id
`Date.now() + 1`), and the loading flags are cleared. -/
def finishFileUpload (s : SessionState) (name : String) (now : Nat)
    (summary : String) : SessionState :=
  { s with
      messages := [{ id := now + 1, sender := Sender.ai,
                     content := "<h3>Summary of " ++ name ++ "</h3>" ++ summary }],
      isLoading := false,
      loadingAction := none }

/-- `handleCitationClick` (page.tsx lines 95-102): with a selection, sets
the highlight to the selected document id and the viewer-scroll token to
`Date.now()`, and schedules a `setTimeout` clearing the highlight 1000
time units later (the scheduled deadline is the third component; `none`
means no timer was scheduled). -/
def handleCitationClick (s : SessionState) (now : Nat) :
    Option ActionErr × SessionState × Option Nat :=
  match s.selectedDocument with
  | none => (none, s, none)
  | some d =>
    (none,
     { s with highlightedDoc := some d.id, viewerScroll := now },
     some (now + 1000))

/-- The `setTimeout` callback of `handleCitationClick` (page.tsx lines
99-101): clears the highlight. -/
def fireHighlightTimeout (s : SessionState) : SessionState :=
  { s with highlightedDoc := none }

/-- The initial React state (page.tsx lines 16-23). -/
def emptySession : SessionState :=
  { documents := []
    selectedDocument := none
    messages := []
    isLoading := false
    loadingAction := none
    highlightedDoc := none
    viewerScroll := 0 }

/-- Sample document used by concrete witnesses and counterexamples. -/
def sampleDoc : Document :=
  { id := 1, name := "lease.pdf", summary := "", content := "U1" }

/-- An idle state with `sampleDoc` uploaded and selected. -/
def idleState : SessionState :=
  { documents := [sampleDoc]
    selectedDocument := some sampleDoc
    messages := []
    isLoading := false
    loadingAction := none
    highlightedDoc := none
    viewerScroll := 0 }

/-- A state in which a `qna` action is in flight. -/
def busyState : SessionState :=
  { idleState with isLoading := true, loadingAction := some "qna" }

/-- A state with documents present but no selection. -/
def noDocState : SessionState :=
  { idleState with selectedDocument := none }

/-- Outcome text appended by the `qna` action (page.tsx lines 120 and 123). -/
def qnaReply : Except Unit String → String
  | Except.ok answer => answer
  | Except.error _ =>
      "Sorry, I encountered an error trying to answer your question."

/-- Outcome text appended by the `summary` action (page.tsx lines 137 and 140). -/
def summaryReply (name : String) : Except Unit String → String
  | Except.ok summary => "<h3>Summary of " ++ name ++ "</h3>" ++ summary
  | Except.error _ => "Sorry, I couldn't generate a summary for " ++ name ++ "."

/-- Outcome text appended by the `risks` action (page.tsx lines 154 and 157). -/
def risksReply : Except Unit String → String
  | Except.ok analysis => analysis
  | Except.error _ => "Sorry, I failed to analyze risks and clauses."

/-- Outcome text appended by the `jargon` action (page.tsx lines 175 and 178). -/
def jargonReply (term : String) : Except Unit String → String
  | Except.ok definition => definition
  | Except.error _ => "Sorry, I failed to define \"" ++ term ++ "\"."

/-- Full execution of the `qna` handler when its guard passes. -/
theorem handleSendMessage_run (s : SessionState) (d : Document) (q : String)
    (n1 n2 : Nat) (collab : Except Unit String)
    (hsel : s.selectedDocument = some d) (hc : d.content ≠ "") :
    handleSendMessage s q n1 n2 collab =
      (none, { s with
          messages := s.messages ++
            [{ id := n1, sender := Sender.user, content := q },
             { id := n2, sender := Sender.ai, content := qnaReply collab }],
          isLoading := false,
          loadingAction := none }) := by
  cases collab <;> simp [handleSendMessage, addMessage, qnaReply, hsel, hc]

/-- Full execution of the `summary` handler when its guard passes. -/
theorem handleGenerateSummary_run (s : SessionState) (d : Document)
    (now : Nat) (collab : Except Unit String) (hc : d.content ≠ "") :
    handleGenerateSummary s (some d) now collab =
      (none, { s with
          messages := s.messages ++
            [{ id := now, sender := Sender.ai,
               content := summaryReply d.name collab }],
          isLoading := false,
          loadingAction := none }) := by
  cases collab <;> simp [handleGenerateSummary, addMessage, summaryReply, hc]

/-- Full execution of the `risks` handler when its guard passes. -/
theorem handleRiskAnalysis_run (s : SessionState) (d : Document)
    (now : Nat) (collab : Except Unit String)
    (hsel : s.selectedDocument = some d) (hc : d.content ≠ "") :
    handleRiskAnalysis s now collab =
      (none, { s with
          messages := s.messages ++
            [{ id := now, sender := Sender.ai, content := risksReply collab }],
          isLoading := false,
          loadingAction := none }) := by
  cases collab <;> simp [handleRiskAnalysis, addMessage, risksReply, hsel, hc]

/-- Full execution of the `jargon` handler when its guard passes. -/
theorem handleDefineTerm_run (s : SessionState) (d : Document) (term : String)
    (n1 n2 : Nat) (collab : Except Unit String)
    (hsel : s.selectedDocument = some d) (hc : d.content ≠ "")
    (hterm : jsTrim term ≠ "") :
    handleDefineTerm s term n1 n2 collab =
      (none, { s with
          messages := s.messages ++
            [{ id := n1, sender := Sender.user,
               content := "Define: \"" ++ term ++ "\"" },
             { id := n2, sender := Sender.ai,
               content := jargonReply term collab }],
          isLoading := false,
          loadingAction := none }) := by
  cases collab <;> simp [handleDefineTerm, addMessage, jargonReply, hsel, hc, hterm]

/-- C1: for each of the four actions (qna, summary, risks, jargon) that
starts (its guard passes) and then settles, whatever the collaborator
outcome, the loading indicator (`isLoading`/`loadingAction`) is cleared
and exactly one new `ai` message has been appended relative to the state
just before the collaborator call (for qna/jargon that state already
holds the pre-appended `user` message). -/
theorem action_completion_contract
    (s : SessionState) (d : Document) (q term : String) (n1 n2 : Nat)
    (collab : Except Unit String)
    (hsel : s.selectedDocument = some d) (hc : d.content ≠ "")
    (hterm : jsTrim term ≠ "") :
    ((handleSendMessage s q n1 n2 collab).2.isLoading = false ∧
     (handleSendMessage s q n1 n2 collab).2.loadingAction = none ∧
     ∃ m, m.sender = Sender.ai ∧
       (handleSendMessage s q n1 n2 collab).2.messages
         = (addMessage s n1 Sender.user q).messages ++ [m]) ∧
    ((handleGenerateSummary s s.selectedDocument n2 collab).2.isLoading = false ∧
     (handleGenerateSummary s s.selectedDocument n2 collab).2.loadingAction = none ∧
     ∃ m, m.sender = Sender.ai ∧
       (handleGenerateSummary s s.selectedDocument n2 collab).2.messages
         = s.messages ++ [m]) ∧
    ((handleRiskAnalysis s n2 collab).2.isLoading = false ∧
     (handleRiskAnalysis s n2 collab).2.loadingAction = none ∧
     ∃ m, m.sender = Sender.ai ∧
       (handleRiskAnalysis s n2 collab).2.messages = s.messages ++ [m]) ∧
    ((handleDefineTerm s term n1 n2 collab).2.isLoading = false ∧
     (handleDefineTerm s term n1 n2 collab).2.loadingAction = none ∧
     ∃ m, m.sender = Sender.ai ∧
       (handleDefineTerm s term n1 n2 collab).2.messages
         = (addMessage s n1 Sender.user ("Define: \"" ++ term ++ "\"")).messages
             ++ [m]) := by
  rw [hsel]
  refine ⟨?_, ?_, ?_, ?_⟩
  · rw [handleSendMessage_run s d q n1 n2 collab hsel hc]
    exact ⟨rfl, rfl,
      ⟨{ id := n2, sender := Sender.ai, content := qnaReply collab }, rfl,
        by simp [addMessage]⟩⟩
  · rw [handleGenerateSummary_run s d n2 collab hc]
    exact ⟨rfl, rfl,
      ⟨{ id := n2, sender := Sender.ai, content := summaryReply d.name collab },
        rfl, rfl⟩⟩
  · rw [handleRiskAnalysis_run s d n2 collab hsel hc]
    exact ⟨rfl, rfl,
      ⟨{ id := n2, sender := Sender.ai, content := risksReply collab }, rfl, rfl⟩⟩
  · rw [handleDefineTerm_run s d term n1 n2 collab hsel hc hterm]
    exact ⟨rfl, rfl,
      ⟨{ id := n2, sender := Sender.ai, content := jargonReply term collab }, rfl,
        by simp [addMessage]⟩⟩

/-- Witness for C1: the contract applied at a concrete idle state with a
selected document, concrete clocks and a succeeding collaborator. -/
theorem action_completion_contract_witness :
    (handleSendMessage idleState "Q" 2 3 (Except.ok "A")).2.loadingAction = none :=
  (action_completion_contract idleState sampleDoc "Q" "T" 2 3 (Except.ok "A")
      rfl (by decide) (by decide)).1.2.1

/-- C7: a question sent via the qna action appends a `user` message with
the question text before the collaborator call; when the collaborator
fails, the transcript ends with that user message followed by exactly one
`ai` apology message, and the loading indicator is cleared (nothing is
surfaced to the caller). -/
theorem qna_failure_transcript (s : SessionState) (d : Document)
    (q : String) (n1 n2 : Nat)
    (hsel : s.selectedDocument = some d) (hc : d.content ≠ "") :
    (handleSendMessage s q n1 n2 (Except.error ())).1 = none ∧
    (handleSendMessage s q n1 n2 (Except.error ())).2.messages
      = s.messages ++
        [{ id := n1, sender := Sender.user, content := q },
         { id := n2, sender := Sender.ai,
           content := "Sorry, I encountered an error trying to answer your question." }] ∧
    (handleSendMessage s q n1 n2 (Except.error ())).2.isLoading = false ∧
    (handleSendMessage s q n1 n2 (Except.error ())).2.loadingAction = none := by
  rw [handleSendMessage_run s d q n1 n2 (Except.error ()) hsel hc]
  exact ⟨rfl, rfl, rfl, rfl⟩

/-- Witness for C7 at a concrete state with a selected document. -/
theorem qna_failure_transcript_witness :
    (handleSendMessage idleState "What is the term length?" 2 3
        (Except.error ())).2.messages
      = idleState.messages ++
        [{ id := 2, sender := Sender.user,
           content := "What is the term length?" },
         { id := 3, sender := Sender.ai,
           content := "Sorry, I encountered an error trying to answer your question." }] :=
  (qna_failure_transcript idleState sampleDoc "What is the term length?" 2 3
      rfl (by decide)).2.1

/-- C8: when the summary action succeeds for the selected document,
exactly one `ai` message is appended, whose content is titled with the
document's name and wraps the returned summary text (it contains both the
name and the summary). -/
theorem summary_success_message (s : SessionState) (d : Document)
    (sum : String) (now : Nat)
    (hsel : s.selectedDocument = some d) (hc : d.content ≠ "") :
    ∃ m : Message,
      (handleGenerateSummary s s.selectedDocument now (Except.ok sum)).2.messages
        = s.messages ++ [m] ∧
      m.sender = Sender.ai ∧
      m.content = "<h3>Summary of " ++ d.name ++ "</h3>" ++ sum ∧
      ∃ pre mid, m.content = pre ++ d.name ++ mid ++ sum := by
  rw [hsel, handleGenerateSummary_run s d now (Except.ok sum) hc]
  exact ⟨{ id := now, sender := Sender.ai,
           content := summaryReply d.name (Except.ok sum) },
         rfl, rfl, rfl, "<h3>Summary of ", "</h3>", rfl⟩

/-- Witness for C8: the scenario of the specification, with the summary
collaborator resolving with a fixed sentence. -/
theorem summary_success_message_witness :
    ∃ m : Message,
      (handleGenerateSummary idleState idleState.selectedDocument 4
          (Except.ok "Tenant pays rent monthly.")).2.messages
        = idleState.messages ++ [m] ∧
      m.sender = Sender.ai ∧
      m.content = "<h3>Summary of " ++ sampleDoc.name ++ "</h3>"
          ++ "Tenant pays rent monthly." ∧
      ∃ pre mid,
        m.content = pre ++ sampleDoc.name ++ mid ++ "Tenant pays rent monthly." :=
  summary_success_message idleState sampleDoc "Tenant pays rent monthly." 4
    rfl (by decide)

/-- C9: a citation click with a selected document sets the highlight to
the selected document's id, sets the scroll token to the click's
timestamp (so activations at distinct times carry distinct tokens),
schedules the clearing timeout exactly 1000 time units later, and when
that scheduled timeout fires the highlight is none again. -/
theorem citation_click_highlight (s : SessionState) (d : Document)
    (now : Nat) (hsel : s.selectedDocument = some d) :
    (handleCitationClick s now).1 = none ∧
    (handleCitationClick s now).2.1.highlightedDoc = some d.id ∧
    (handleCitationClick s now).2.1.viewerScroll = now ∧
    (handleCitationClick s now).2.2 = some (now + 1000) ∧
    (fireHighlightTimeout (handleCitationClick s now).2.1).highlightedDoc
      = none ∧
    (∀ t2 : Nat, t2 ≠ now →
      (handleCitationClick s t2).2.1.viewerScroll
        ≠ (handleCitationClick s now).2.1.viewerScroll) := by
  simp [handleCitationClick, fireHighlightTimeout, hsel]

/-- Witness for C9 at a concrete state with a selected document. -/
theorem citation_click_highlight_witness :
    (handleCitationClick idleState 40).2.1.highlightedDoc = some sampleDoc.id :=
  (citation_click_highlight idleState sampleDoc 40 rfl).2.1

/-- C10: with no document selected, a citation click is a no-op: the
state (highlight, scroll token and all other fields) is returned
unchanged, no timeout is scheduled, and nothing is surfaced to the
caller. -/
theorem citation_click_noop_without_selection (s : SessionState) (now : Nat)
    (hsel : s.selectedDocument = none) :
    handleCitationClick s now = (none, s, none) := by
  simp [handleCitationClick, hsel]

/-- Witness for C10 at a concrete state with no selection. -/
theorem citation_click_noop_witness :
    handleCitationClick noDocState 40 = (none, noDocState, none) :=
  citation_click_noop_without_selection noDocState 40 rfl

/-- C2 counterexample: in a concrete state where a `qna` action is in
flight (`loadingAction = some "qna"`), requesting the risk analysis does
NOT fail with `Busy` and DOES mutate the transcript — the handlers never
consult the loading flags, so the claimed reject-if-busy behaviour is
absent from the code. -/
theorem busy_not_rejected_counterexample :
    (handleRiskAnalysis busyState 5 (Except.ok "Analysis")).2.messages
      ≠ busyState.messages ∧
    (handleRiskAnalysis busyState 5 (Except.ok "Analysis")).1
      ≠ some ActionErr.busy := by
  decide

/-- C2 amended: an action requested while another is in flight is not
rejected: the guards check only for a selected document with non-empty
content, so the new action runs exactly as from idle — no `Busy` error is
surfaced, the transcript is appended to, and the loading indicator ends
cleared. -/
theorem busy_action_proceeds (s : SessionState) (d : Document)
    (k q : String) (n1 n2 : Nat) (collab : Except Unit String)
    (hsel : s.selectedDocument = some d) (hc : d.content ≠ "")
    (_hbusy : s.loadingAction = some k) :
    ((handleSendMessage s q n1 n2 collab).1 ≠ some ActionErr.busy ∧
     (handleSendMessage s q n1 n2 collab).2.messages ≠ s.messages ∧
     (handleSendMessage s q n1 n2 collab).2.loadingAction = none) ∧
    ((handleRiskAnalysis s n2 collab).1 ≠ some ActionErr.busy ∧
     (handleRiskAnalysis s n2 collab).2.messages ≠ s.messages ∧
     (handleRiskAnalysis s n2 collab).2.loadingAction = none) := by
  constructor
  · rw [handleSendMessage_run s d q n1 n2 collab hsel hc]
    refine ⟨by simp, ?_, rfl⟩
    intro h
    have hlen := congrArg List.length h
    simp at hlen
  · rw [handleRiskAnalysis_run s d n2 collab hsel hc]
    refine ⟨by simp, ?_, rfl⟩
    intro h
    have hlen := congrArg List.length h
    simp at hlen

/-- Witness for the amended C2 at a concrete busy state. -/
theorem busy_action_proceeds_witness :
    (handleRiskAnalysis busyState 3 (Except.ok "R")).2.loadingAction = none :=
  (busy_action_proceeds busyState sampleDoc "qna" "Q" 2 3 (Except.ok "R")
      rfl (by decide) rfl).2.2.2

/-- A pre-existing transcript message used by the C3 counterexample. -/
def strayMessage : Message :=
  { id := 3, sender := Sender.ai, content := "old analysis" }

/-- C3 counterexample: selection is NOT the only operation that resets
the transcript.  The upload continuation (`setMessages([summaryMessage])`
in `handleFileChange`, page.tsx line 59) replaces the whole transcript:
at a concrete state holding a message, that message is gone after
`finishFileUpload`, an operation that is not a selection. -/
theorem upload_resets_transcript_counterexample :
    strayMessage ∈
      ({ idleState with messages := [strayMessage] } : SessionState).messages ∧
    strayMessage ∉
      (finishFileUpload { idleState with messages := [strayMessage] }
          "lease.pdf" 7 "S").messages := by
  decide

/-- C3 amended: immediately after the synchronous part of selecting a
document the transcript is empty and the selection is the chosen
document, for every prior transcript; so no message from a previously
selected document is visible after switching.  Selection is however not
the only transcript-resetting operation: the upload continuation replaces
the whole transcript with exactly the one summary message of the new
document. -/
theorem select_clears_transcript :
    (∀ (s : SessionState) (doc : Document),
        (handleSelectDocumentSync s doc).messages = [] ∧
        (handleSelectDocumentSync s doc).selectedDocument = some doc) ∧
    (∀ (s : SessionState) (name : String) (now : Nat) (summary : String),
        (finishFileUpload s name now summary).messages
          = [{ id := now + 1, sender := Sender.ai,
               content := "<h3>Summary of " ++ name ++ "</h3>" ++ summary }]) := by
  constructor
  · intro s doc
    unfold handleSelectDocumentSync
    constructor <;> (dsimp only; split <;> rfl)
  · intro s name now summary
    rfl

/-- One upload appends exactly one document whose id is the upload's
clock value. -/
theorem addDocumentAt_documents (s : SessionState) (now : Nat)
    (name dataUri : String) :
    (addDocumentAt s now name dataUri).documents
      = s.documents ++
        [{ id := now, name := name, summary := "", content := dataUri }] := by
  unfold addDocumentAt handleSelectDocumentSync
  dsimp only
  split <;> rfl

/-- The ids of the documents after a sequence of uploads are the prior
ids followed by the uploads' clock values. -/
theorem addDocuments_ids (ups : List (Nat × String × String)) :
    ∀ s : SessionState,
      (addDocuments s ups).documents.map Document.id
        = s.documents.map Document.id ++ ups.map Prod.fst := by
  induction ups with
  | nil => intro s; simp [addDocuments]
  | cons u rest ih =>
    intro s
    have h1 : addDocuments s (u :: rest)
        = addDocuments (addDocumentAt s u.1 u.2.1 u.2.2) rest := rfl
    rw [h1, ih, addDocumentAt_documents]
    simp

/-- C4 counterexample: ids come from `Date.now()`, so two uploads within
the same clock tick receive the SAME id — after two uploads at clock
value 5 the id list is `[5, 5]`, neither pairwise unique nor strictly
increasing. -/
theorem addDocument_ids_collide_counterexample :
    ¬ ((addDocuments emptySession
          [(5, "a.txt", "x"), (5, "b.txt", "y")]).documents.map
            Document.id).Nodup ∧
    ¬ List.Pairwise (fun a b : Nat => a < b)
        ((addDocuments emptySession
            [(5, "a.txt", "x"), (5, "b.txt", "y")]).documents.map
              Document.id) := by
  decide

/-- C4 amended: ids are the wall-clock values at creation, so they are
pairwise unique and strictly increasing exactly when the clock values of
the uploads are; under a strictly increasing clock the claimed invariant
holds, and ids are then never reused. -/
theorem addDocument_ids_increasing_with_clock
    (ups : List (Nat × String × String))
    (hck : List.Pairwise (fun a b : Nat => a < b) (ups.map Prod.fst)) :
    List.Pairwise (fun a b : Nat => a < b)
      ((addDocuments emptySession ups).documents.map Document.id) ∧
    ((addDocuments emptySession ups).documents.map Document.id).Nodup := by
  have h := addDocuments_ids ups emptySession
  have h0 : emptySession.documents.map Document.id = [] := rfl
  rw [h0] at h
  simp only [List.nil_append] at h
  rw [h]
  exact ⟨hck, hck.imp fun hab => Nat.ne_of_lt hab⟩

/-- Witness for the amended C4: two uploads at strictly increasing clock
values 3 and 5 yield strictly increasing ids. -/
theorem addDocument_ids_increasing_witness :
    List.Pairwise (fun a b : Nat => a < b)
      ((addDocuments emptySession
          [(3, "a.txt", "x"), (5, "b.txt", "y")]).documents.map Document.id) :=
  (addDocument_ids_increasing_with_clock [(3, "a.txt", "x"), (5, "b.txt", "y")]
      (by decide)).1

/-- C5 counterexample: at a concrete state with no selected document,
none of the four action handlers surfaces a `NoDocument` error to its
caller — each exits with a bare `return` (the error channel stays
`none`), so the failure is silently swallowed, contrary to the claim. -/
theorem no_document_error_counterexample :
    (handleSendMessage noDocState "q" 1 2 (Except.ok "a")).1
      ≠ some ActionErr.noDocument ∧
    (handleGenerateSummary noDocState noDocState.selectedDocument 1
        (Except.ok "a")).1 ≠ some ActionErr.noDocument ∧
    (handleRiskAnalysis noDocState 1 (Except.ok "a")).1
      ≠ some ActionErr.noDocument ∧
    (handleDefineTerm noDocState "t" 1 2 (Except.ok "a")).1
      ≠ some ActionErr.noDocument := by
  decide

/-- C5 amended: each of the four action handlers, invoked without an
active document with non-empty content, is a silent no-op: it appends
nothing to the transcript, leaves the whole state unchanged, and
surfaces no error to the caller (the specification's `NoDocument` failure
is not signalled). -/
theorem no_document_silent_noop (s : SessionState)
    (h : s.selectedDocument = none ∨
         ∃ d, s.selectedDocument = some d ∧ d.content = "")
    (q term : String) (n1 n2 : Nat) (collab : Except Unit String) :
    handleSendMessage s q n1 n2 collab = (none, s) ∧
    handleGenerateSummary s s.selectedDocument n1 collab = (none, s) ∧
    handleRiskAnalysis s n1 collab = (none, s) ∧
    handleDefineTerm s term n1 n2 collab = (none, s) := by
  rcases h with hsel | ⟨d, hsel, hd⟩
  · refine ⟨?_, ?_, ?_, ?_⟩ <;>
      simp [handleSendMessage, handleGenerateSummary, handleRiskAnalysis,
        handleDefineTerm, hsel]
  · refine ⟨?_, ?_, ?_, ?_⟩ <;>
      simp [handleSendMessage, handleGenerateSummary, handleRiskAnalysis,
        handleDefineTerm, hsel, hd]

/-- Witness for the amended C5 at a concrete state with no selection. -/
theorem no_document_silent_noop_witness :
    handleRiskAnalysis noDocState 1 (Except.ok "a") = (none, noDocState) :=
  (no_document_silent_noop noDocState (Or.inl rfl) "q" "t" 1 2
      (Except.ok "a")).2.2.1

/-- C6 counterexample: with a document selected, `handleDefineTerm` on
the empty term and on a whitespace-only term does NOT surface an
`InvalidInput` error — the guard exits with a bare `return`, leaving the
error channel `none`. -/
theorem defineTerm_blank_no_error_counterexample :
    (handleDefineTerm idleState "" 1 2 (Except.ok "d")).1
      ≠ some ActionErr.invalidInput ∧
    (handleDefineTerm idleState "   " 1 2 (Except.ok "d")).1
      ≠ some ActionErr.invalidInput := by
  decide

/-- C6 amended: `handleDefineTerm` on a term that trims to empty (the
empty string, or whitespace only) is a silent no-op: no user or ai
message is appended, the state is returned unchanged, and no
`InvalidInput` error is surfaced to the caller. -/
theorem defineTerm_blank_silent_noop (s : SessionState) (term : String)
    (hterm : jsTrim term = "") (n1 n2 : Nat) (collab : Except Unit String) :
    handleDefineTerm s term n1 n2 collab = (none, s) := by
  rcases hsel : s.selectedDocument with _ | d
  · simp [handleDefineTerm, hsel]
  · rcases hd : decide (d.content = "") with _ | _
    · simp at hd
      simp [handleDefineTerm, hsel, hd, hterm]
    · simp at hd
      simp [handleDefineTerm, hsel, hd]

/-- Witness for the amended C6 on the whitespace-only term. -/
theorem defineTerm_blank_silent_noop_witness :
    handleDefineTerm idleState "   " 1 2 (Except.ok "d") = (none, idleState) :=
  defineTerm_blank_silent_noop idleState "   " (by decide) 1 2 (Except.ok "d")
